import Mathlib

/-
  Verification development for the HA_Z2M_Smart_Irrigation repository.

  The definitions below are a shallow embedding of the decision-and-execution
  engine in src/smart_irrigation/app/main.py (the current add-on code):

  * WeatherProvider results are the dictionaries returned by get_forecast and
    get_recent_rain: rain_mm, optional rain_chance, and a success/error status.
  * SmartIrrigationController.check_weather_conditions (lines 373-435) is
    embedded as forecastStage / recentStage / check_weather_conditions, with
    Python floats modelled as rationals and the f-string reason messages
    modelled by the Reason branch tag that produced them.  The EvalResult
    record additionally logs which weather queries the code performed.
  * SmartIrrigationController.run_zone (lines 490-526) is embedded as
    run_zone_trace, with task cancellation during the sleep loop modelled as
    an input event, plus effectiveDuration for the duration_override handling.
  * process_scheduled_irrigation's duration reduction (lines 565-574) is
    embedded as scheduledDuration, with Python's int() cast as pyInt.
  * The api_run_zone Flask endpoint (lines 624-638) is embedded as
    api_run_zone over a state holding the zone list and the list of run
    tasks spawned with asyncio.create_task.
  * The HistoryStore component of the specification has no implementation in
    the repository sources; it is modelled from the spec (see below).
-/

namespace SmartIrrigation

/-- Which branch of check_weather_conditions produced the reason message of
the returned conditions dictionary (the Python code stores an f-string; only
the branch identity matters for the decision logic). -/
inductive Reason where
  | noReason
  | rainChance
  | forecastRain
  | recentRainReduced
  | recentRainSkip
deriving DecidableEq, Repr

/-- Result dictionary of WeatherProvider.get_forecast: rain_mm, an optional
rain_chance (read back with .get, defaulting to 0), and status, where
success = true models status == "success". -/
structure ForecastSample where
  rain_mm : ℚ
  rain_chance : Option ℚ
  success : Bool
deriving DecidableEq, Repr

/-- Result dictionary of WeatherProvider.get_recent_rain: rain_mm and status. -/
structure RecentSample where
  rain_mm : ℚ
  success : Bool
deriving DecidableEq, Repr

/-- The rain_forecast section of the add-on configuration. -/
structure RainForecastConfig where
  enabled : Bool
  threshold_mm : ℚ
  skip_percentage : ℚ
deriving DecidableEq, Repr

/-- The recent_rain section of the add-on configuration.  The field
compensation_cap embeds the configuration key compensation_ratio. -/
structure RecentRainConfig where
  enabled : Bool
  threshold_mm : ℚ
  compensation_enabled : Bool
  compensation_cap : ℚ
deriving DecidableEq, Repr

/-- The conditions dictionary built by check_weather_conditions, including
the details sub-dictionary entries (absent keys are modelled as none). -/
structure Conditions where
  skip_irrigation : Bool
  reduce_duration : Bool
  reduction_factor : ℚ
  reason : Reason
  detail_forecast_rain : Option ℚ
  detail_rain_chance : Option ℚ
  detail_recent_rain : Option ℚ
deriving DecidableEq, Repr

/-- The dictionary literal that opens check_weather_conditions:
no skip, no reduction, factor 1.0, empty reason, empty details. -/
def initialConditions : Conditions :=
  { skip_irrigation := false
    reduce_duration := false
    reduction_factor := 1
    reason := Reason.noReason
    detail_forecast_rain := none
    detail_rain_chance := none
    detail_recent_rain := none }

/-- The rain-forecast block of check_weather_conditions (main.py 385-408):
when the check is enabled and the forecast query succeeded, record the
readings in details, then skip when rain_chance meets skip_percentage, else
skip when forecast rain meets threshold_mm; on a disabled check or an
errored query the conditions are left at their initial values. -/
def forecastStage (fc : RainForecastConfig) (forecast : ForecastSample) : Conditions :=
  if fc.enabled then
    if forecast.success then
      let forecast_rain := forecast.rain_mm
      let rain_chance := (forecast.rain_chance).getD 0
      let c := { initialConditions with
                 detail_forecast_rain := some forecast_rain
                 detail_rain_chance := some rain_chance }
      if fc.skip_percentage ≤ rain_chance then
        { c with skip_irrigation := true, reason := Reason.rainChance }
      else if fc.threshold_mm ≤ forecast_rain then
        { c with skip_irrigation := true, reason := Reason.forecastRain }
      else c
    else initialConditions
  else initialConditions

/-- The recent-rain block of check_weather_conditions (main.py 410-433):
entered only when the check is enabled and no skip was decided; on a
successful query with recent rain meeting threshold_mm, either reduce the
duration by min(compensation_ratio, recent_rain / (threshold * 2)) when
compensation is enabled, or skip; an errored query leaves the conditions
unchanged. -/
def recentStage (rr : RecentRainConfig) (recent : RecentSample) (c : Conditions) : Conditions :=
  if rr.enabled ∧ c.skip_irrigation = false then
    if recent.success then
      let recent_rain := recent.rain_mm
      let c1 := { c with detail_recent_rain := some recent_rain }
      if rr.threshold_mm ≤ recent_rain then
        if rr.compensation_enabled then
          let reduction := min rr.compensation_cap (recent_rain / (rr.threshold_mm * 2))
          { c1 with reduce_duration := true
                    reduction_factor := 1 - reduction
                    reason := Reason.recentRainReduced }
        else
          { c1 with skip_irrigation := true, reason := Reason.recentRainSkip }
      else c1
    else c
  else c

/-- Return value of check_weather_conditions together with a log of which
weather queries the code performed: get_forecast runs iff the forecast check
is enabled, get_recent_rain runs iff the recent check is enabled and the
forecast block decided no skip. -/
structure EvalResult where
  conditions : Conditions
  forecast_queried : Bool
  recent_queried : Bool
deriving DecidableEq, Repr

/-- SmartIrrigationController.check_weather_conditions (main.py 373-435). -/
def check_weather_conditions (fc : RainForecastConfig) (rr : RecentRainConfig)
    (forecast : ForecastSample) (recent : RecentSample) : EvalResult :=
  let c1 := forecastStage fc forecast
  { conditions := recentStage rr recent c1
    forecast_queried := fc.enabled
    recent_queried := rr.enabled && !c1.skip_irrigation }

/-- Zone status strings used by the code: "idle", "running", "completed",
"stopped", "failed" (states named by the data model; the code itself only
ever assigns idle, running, completed and failed). -/
inductive ZoneStatus where
  | idle
  | running
  | completed
  | stopped
  | failed
deriving DecidableEq, Repr

/-- Python int() truncation toward zero on a rational. -/
def pyInt (q : ℚ) : ℤ :=
  if 0 ≤ q then ⌊q⌋ else -⌊-q⌋

/-- The duration process_scheduled_irrigation passes to run_zone
(main.py 565-574): the zone's configured duration, cast through int() after
multiplying by the reduction factor when the decision asked for a reduced
duration.  No rounding and no minimum-1 clamp appear in the code. -/
def scheduledDuration (zoneDuration : ℕ) (c : Conditions) : ℤ :=
  if c.reduce_duration then pyInt ((zoneDuration : ℚ) * c.reduction_factor)
  else (zoneDuration : ℤ)

/-- The duration run_zone actually uses (main.py 492-495):
duration = duration_override or zone.duration evaluates the Python or, so a
missing override and an override of 0 both fall back to the zone's full
configured duration; test mode then caps the result at 1 minute. -/
def effectiveDuration (zoneDuration : ℕ) (durationOverride : Option ℤ)
    (testMode : Bool) : ℤ :=
  let d : ℤ :=
    match durationOverride with
    | some n => if n = 0 then (zoneDuration : ℤ) else n
    | none => (zoneDuration : ℤ)
  if testMode then min d 1 else d

/-- Externally visible effects of one run_zone execution. -/
structure RunTrace where
  valveOnCalls : ℕ
  valveOffCalls : ℕ
  finalStatus : ZoneStatus
  waterCredited : ℚ
  enteredWaitLoop : Bool
deriving DecidableEq, Repr

/-- Control flow of SmartIrrigationController.run_zone (main.py 498-526)
after the duration is fixed.  valveOnOk is the boolean returned by the
valve-on call; cancelledMidWait models the surrounding asyncio task being
cancelled while the code is suspended inside the sleep loop, in which case
CancelledError propagates out of run_zone — the function has no
try/finally or except handler, so the valve-off call is never reached and
the status assignment to "completed" never executes, leaving the status at
"running" set on entry; flowWater is the water_used total accumulated from
the flow sensor during the loop (0.0 without a flow sensor), added to the
zone's total only on the completed path. -/
def run_zone_trace (valveOnOk : Bool) (cancelledMidWait : Bool)
    (flowWater : ℚ) : RunTrace :=
  if valveOnOk then
    if cancelledMidWait then
      { valveOnCalls := 1
        valveOffCalls := 0
        finalStatus := ZoneStatus.running
        waterCredited := 0
        enteredWaitLoop := true }
    else
      { valveOnCalls := 1
        valveOffCalls := 1
        finalStatus := ZoneStatus.completed
        waterCredited := flowWater
        enteredWaitLoop := true }
  else
    { valveOnCalls := 1
      valveOffCalls := 0
      finalStatus := ZoneStatus.failed
      waterCredited := 0
      enteredWaitLoop := false }

/-- A zone as seen by the Flask endpoints: its name and current status. -/
structure ApiZone where
  name : String
  status : ZoneStatus
deriving DecidableEq, Repr

/-- Controller state visible to the api_run_zone endpoint: the zone list
plus the run_zone tasks spawned so far with asyncio.create_task and still
live (one list entry per spawned, unfinished run, recording its zone name). -/
structure ApiState where
  zones : List ApiZone
  activeTasks : List String
deriving DecidableEq, Repr

/-- The api_run_zone Flask endpoint (main.py 624-638): look the zone up by
name with next(...); if found, spawn run_zone as a new task and answer
success — the zone's status and any already-running task for the same zone
are not consulted; if no zone matches, answer an error and change nothing. -/
def api_run_zone (s : ApiState) (zoneName : String) : ApiState × Bool :=
  match s.zones.find? (fun z => z.name == zoneName) with
  | some _ => ({ s with activeTasks := s.activeTasks ++ [zoneName] }, true)
  | none => (s, false)

/-- Modelled from the spec: one calendar day's aggregate of the HistoryStore
(spec section 4.4); the repository sources contain no HistoryStore
implementation, only the specification describes it. -/
structure HistoryDay where
  waterUsedLiters : ℚ
  rainfallMm : ℚ
deriving DecidableEq, Repr

/-- Modelled from the spec: the HistoryStore collection, a mapping from ISO
calendar date string to HistoryDay with at most one entry per date. -/
abbrev HistoryStore := List (String × HistoryDay)

/-- Modelled from the spec: read a day's entry, zero-valued when absent. -/
def getDay (s : HistoryStore) (d : String) : HistoryDay :=
  match s.find? (fun e => e.1 == d) with
  | some e => e.2
  | none => { waterUsedLiters := 0, rainfallMm := 0 }

/-- Modelled from the spec: write a day's entry, replacing an existing
entry for the same date and appending a fresh one otherwise. -/
def setDay (s : HistoryStore) (d : String) (v : HistoryDay) : HistoryStore :=
  match s with
  | [] => [(d, v)]
  | e :: rest => if e.1 == d then (d, v) :: rest else e :: setDay rest d v

/-- Modelled from the spec: HistoryStore.addWater — additive increment to
today's entry, creating it with zero-initialized fields if absent. -/
def addWater (s : HistoryStore) (today : String) (amountLiters : ℚ) : HistoryStore :=
  let cur := getDay s today
  setDay s today { cur with waterUsedLiters := cur.waterUsedLiters + amountLiters }

/-- Modelled from the spec: HistoryStore.setRainfall — overwrite today's
entry's rainfall field, creating the entry zero-initialized if absent. -/
def setRainfall (s : HistoryStore) (today : String) (amountMm : ℚ) : HistoryStore :=
  let cur := getDay s today
  setDay s today { cur with rainfallMm := amountMm }

lemma forecastStage_error (fc : RainForecastConfig) (f : ForecastSample)
    (h : f.success = false) : forecastStage fc f = initialConditions := by
  unfold forecastStage
  rw [h]
  simp

lemma forecastStage_disabled (fc : RainForecastConfig) (f : ForecastSample)
    (h : fc.enabled = false) : forecastStage fc f = initialConditions := by
  unfold forecastStage
  rw [h]
  simp

lemma recentStage_error (rr : RecentRainConfig) (r : RecentSample) (c : Conditions)
    (h : r.success = false) : recentStage rr r c = c := by
  unfold recentStage
  rw [h]
  simp

lemma recentStage_disabled (rr : RecentRainConfig) (r : RecentSample) (c : Conditions)
    (h : rr.enabled = false) : recentStage rr r c = c := by
  unfold recentStage
  rw [h]
  simp

lemma recentStage_skip (rr : RecentRainConfig) (r : RecentSample) (c : Conditions)
    (h : c.skip_irrigation = true) : recentStage rr r c = c := by
  unfold recentStage
  rw [h]
  simp

lemma forecastStage_chance_skip (fc : RainForecastConfig) (f : ForecastSample)
    (h1 : fc.enabled = true) (h2 : f.success = true)
    (h3 : fc.skip_percentage ≤ (f.rain_chance).getD 0) :
    forecastStage fc f =
      { initialConditions with
        skip_irrigation := true
        reason := Reason.rainChance
        detail_forecast_rain := some f.rain_mm
        detail_rain_chance := some ((f.rain_chance).getD 0) } := by
  unfold forecastStage
  rw [h1, h2]
  simp [h3]

/-- C1: when a weather query reports an error outcome, check_weather_conditions
treats it exactly as if that check were disabled — the failed query contributes
no skip, no reduction and no readings (the provider itself already returns
rain_mm = 0 and rain_chance = 0 on error), so an error alone never produces
skip_irrigation = true, and when both queries fail the evaluation still
returns, with the initial no-skip conditions (fail open toward watering). -/
theorem c1_weather_error_fail_open (fc : RainForecastConfig) (rr : RecentRainConfig)
    (f : ForecastSample) (r : RecentSample) :
    (f.success = false →
      (check_weather_conditions fc rr f r).conditions =
        (check_weather_conditions { fc with enabled := false } rr f r).conditions) ∧
    (r.success = false →
      (check_weather_conditions fc rr f r).conditions =
        (check_weather_conditions fc { rr with enabled := false } f r).conditions) ∧
    (f.success = false → r.success = false →
      (check_weather_conditions fc rr f r).conditions = initialConditions) := by
  refine ⟨?_, ?_, ?_⟩
  · intro hf
    simp only [check_weather_conditions]
    rw [forecastStage_error fc f hf, forecastStage_disabled { fc with enabled := false } f rfl]
  · intro hr
    simp only [check_weather_conditions]
    rw [recentStage_error rr r _ hr, recentStage_disabled { rr with enabled := false } r _ rfl]
  · intro hf hr
    simp only [check_weather_conditions]
    rw [forecastStage_error fc f hf, recentStage_error rr r _ hr]

/-- Closed instance of c1_weather_error_fail_open: with both checks enabled
and both weather queries reporting errors, the evaluation returns the initial
no-skip conditions. -/
theorem c1_witness :
    (check_weather_conditions ⟨true, 5, 50⟩ ⟨true, 10, true, 1/2⟩
        ⟨0, some 0, false⟩ ⟨0, false⟩).conditions = initialConditions :=
  (c1_weather_error_fail_open ⟨true, 5, 50⟩ ⟨true, 10, true, 1/2⟩
    ⟨0, some 0, false⟩ ⟨0, false⟩).2.2 rfl rfl

/-- C2: when the forecast check is enabled, the forecast query succeeds and
its peak precipitation probability reaches skip_percentage, the evaluation
skips with the rain-chance reason, the recent-rain query is not performed,
and no duration reduction is produced — for every forecast rainfall amount
and every recent-rain sample. -/
theorem c2_probability_short_circuit (fc : RainForecastConfig) (rr : RecentRainConfig)
    (f : ForecastSample) (r : RecentSample)
    (h1 : fc.enabled = true) (h2 : f.success = true)
    (h3 : fc.skip_percentage ≤ (f.rain_chance).getD 0) :
    (check_weather_conditions fc rr f r).conditions.skip_irrigation = true ∧
    (check_weather_conditions fc rr f r).conditions.reason = Reason.rainChance ∧
    (check_weather_conditions fc rr f r).recent_queried = false ∧
    (check_weather_conditions fc rr f r).conditions.reduce_duration = false ∧
    (check_weather_conditions fc rr f r).conditions.reduction_factor = 1 := by
  have hfs := forecastStage_chance_skip fc f h1 h2 h3
  have hskip : (forecastStage fc f).skip_irrigation = true := by
    rw [hfs]
  simp only [check_weather_conditions]
  rw [recentStage_skip rr r _ hskip, hfs]
  simp [initialConditions]

/-- Closed instance of c2_probability_short_circuit: rain chance 90 against
skip percentage 70 skips with the rain-chance reason and leaves the
recent-rain query unperformed, despite zero forecast rain and 50 mm of
recent rain against a 10 mm threshold. -/
theorem c2_witness :
    (check_weather_conditions ⟨true, 100, 70⟩ ⟨true, 10, true, 1/2⟩
        ⟨0, some 90, true⟩ ⟨50, true⟩).conditions.skip_irrigation = true ∧
    (check_weather_conditions ⟨true, 100, 70⟩ ⟨true, 10, true, 1/2⟩
        ⟨0, some 90, true⟩ ⟨50, true⟩).conditions.reason = Reason.rainChance ∧
    (check_weather_conditions ⟨true, 100, 70⟩ ⟨true, 10, true, 1/2⟩
        ⟨0, some 90, true⟩ ⟨50, true⟩).recent_queried = false ∧
    (check_weather_conditions ⟨true, 100, 70⟩ ⟨true, 10, true, 1/2⟩
        ⟨0, some 90, true⟩ ⟨50, true⟩).conditions.reduce_duration = false ∧
    (check_weather_conditions ⟨true, 100, 70⟩ ⟨true, 10, true, 1/2⟩
        ⟨0, some 90, true⟩ ⟨50, true⟩).conditions.reduction_factor = 1 :=
  c2_probability_short_circuit ⟨true, 100, 70⟩ ⟨true, 10, true, 1/2⟩
    ⟨0, some 90, true⟩ ⟨50, true⟩ rfl rfl (by norm_num)

/-- C3: when the forecast block decided no skip, the recent-rain check is
enabled, its query succeeds with recent rain at least the threshold, and
compensation is enabled, the returned reduction factor is
1 - min(compensation_ratio, recentRainMm / (2 * recentThresholdMm)); the
positivity hypothesis on the threshold restricts to the inputs on which the
Python division is defined. -/
theorem c3_compensation_formula (fc : RainForecastConfig) (rr : RecentRainConfig)
    (f : ForecastSample) (r : RecentSample)
    (h0 : (forecastStage fc f).skip_irrigation = false)
    (h1 : rr.enabled = true) (h2 : r.success = true)
    (h3 : rr.compensation_enabled = true)
    (h4 : rr.threshold_mm ≤ r.rain_mm)
    (_h5 : 0 < rr.threshold_mm) :
    (check_weather_conditions fc rr f r).conditions.reduction_factor =
      1 - min rr.compensation_cap (r.rain_mm / (2 * rr.threshold_mm)) ∧
    (check_weather_conditions fc rr f r).conditions.reduce_duration = true ∧
    (check_weather_conditions fc rr f r).conditions.skip_irrigation = false := by
  simp only [check_weather_conditions]
  unfold recentStage
  rw [h2]
  simp [h0, h1, h3, h4, mul_comm]

/-- Closed instance of c3_compensation_formula: recent rain 12 mm against a
10 mm threshold with compensation ratio 1/2 yields reduction factor
1 - min(1/2, 12/20) = 1/2. -/
theorem c3_witness :
    (check_weather_conditions ⟨false, 0, 0⟩ ⟨true, 10, true, 1/2⟩
        ⟨0, none, false⟩ ⟨12, true⟩).conditions.reduction_factor =
      1 - min (1/2 : ℚ) (12 / (2 * 10)) ∧
    (1 : ℚ) - min (1/2 : ℚ) (12 / (2 * 10)) = 1/2 :=
  ⟨(c3_compensation_formula ⟨false, 0, 0⟩ ⟨true, 10, true, 1/2⟩
      ⟨0, none, false⟩ ⟨12, true⟩ rfl rfl rfl rfl (by norm_num) (by norm_num)).1,
   by norm_num⟩

/-- C10: when both the rain-forecast check and the recent-rain check are
disabled in the configuration, check_weather_conditions performs no weather
query at all and returns the initial conditions: no skip, no reduction,
factor 1.0. -/
theorem c10_disabled_checks (fc : RainForecastConfig) (rr : RecentRainConfig)
    (f : ForecastSample) (r : RecentSample)
    (h1 : fc.enabled = false) (h2 : rr.enabled = false) :
    check_weather_conditions fc rr f r =
      { conditions := initialConditions
        forecast_queried := false
        recent_queried := false } := by
  simp only [check_weather_conditions]
  rw [forecastStage_disabled fc f h1, recentStage_disabled rr r _ h2, h1, h2]
  simp

/-- Closed instance of c10_disabled_checks at a configuration with both
checks disabled and arbitrary weather samples. -/
theorem c10_witness :
    check_weather_conditions ⟨false, 3, 40⟩ ⟨false, 7, true, 1/4⟩
        ⟨22, some 95, true⟩ ⟨31, true⟩ =
      { conditions := initialConditions
        forecast_queried := false
        recent_queried := false } :=
  c10_disabled_checks ⟨false, 3, 40⟩ ⟨false, 7, true, 1/4⟩
    ⟨22, some 95, true⟩ ⟨31, true⟩ rfl rfl

/-- C4 counterexample: with zone front currently mid-run (status running,
one live run task), a second start request for front is answered with
success and a second run task is spawned — the claimed AlreadyRunning
rejection does not exist, and two runs for the same zone name are now
active at once. -/
theorem c4_counterexample :
    (api_run_zone ⟨[⟨"front", ZoneStatus.running⟩], ["front"]⟩ "front").2 = true ∧
    (api_run_zone ⟨[⟨"front", ZoneStatus.running⟩], ["front"]⟩ "front").1.activeTasks
      = ["front", "front"] := by
  decide

/-- C4 amended: api_run_zone performs no already-running check and keeps no
active-run registry — whenever a zone with the requested name exists it
answers success and spawns one more run task regardless of the zone's
status or of any run already in flight, so concurrent duplicate runs per
zone name are possible; when no zone matches it answers an error and
changes nothing. -/
theorem c4_amended (s : ApiState) (n : String) :
    ((∃ z ∈ s.zones, z.name = n) →
      (api_run_zone s n).2 = true ∧
      (api_run_zone s n).1.activeTasks = s.activeTasks ++ [n] ∧
      (api_run_zone s n).1.zones = s.zones) ∧
    ((∀ z ∈ s.zones, z.name ≠ n) → api_run_zone s n = (s, false)) := by
  constructor
  · intro hex
    have hs : (s.zones.find? (fun z => z.name == n)).isSome := by
      rw [List.find?_isSome]
      obtain ⟨z, hz, he⟩ := hex
      exact ⟨z, hz, by simp [he]⟩
    obtain ⟨z, hz⟩ := Option.isSome_iff_exists.mp hs
    unfold api_run_zone
    rw [hz]
    simp
  · intro hall
    have hn : s.zones.find? (fun z => z.name == n) = none := by
      rw [List.find?_eq_none]
      intro z hz
      simp [hall z hz]
    unfold api_run_zone
    rw [hn]

/-- Closed instance of c4_amended: a start request for an existing zone that
is already running is accepted and appends a second run task. -/
theorem c4_witness :
    (api_run_zone ⟨[⟨"side", ZoneStatus.running⟩], ["side"]⟩ "side").2 = true ∧
    (api_run_zone ⟨[⟨"side", ZoneStatus.running⟩], ["side"]⟩ "side").1.activeTasks
      = ["side"] ++ ["side"] ∧
    (api_run_zone ⟨[⟨"side", ZoneStatus.running⟩], ["side"]⟩ "side").1.zones
      = [⟨"side", ZoneStatus.running⟩] :=
  (c4_amended ⟨[⟨"side", ZoneStatus.running⟩], ["side"]⟩ "side").1
    ⟨⟨"side", ZoneStatus.running⟩, by simp, rfl⟩

/-- Conditions produced by an evaluation whose recent-rain compensation
yields reduction factor 1/20: recent rain 19 mm against a 10 mm threshold
with compensation ratio 19/20. -/
def reducedCond : Conditions :=
  (check_weather_conditions ⟨false, 0, 0⟩ ⟨true, 10, true, 19/20⟩
      ⟨0, none, false⟩ ⟨19, true⟩).conditions

/-- C5 counterexample: a non-skip decision with reduction factor 1/20 on a
zone of 10 configured minutes.  The code computes int(10 * 1/20) = 0 — the
duration actually passed to run_zone is 0, refuting the never-0 clause —
and run_zone's Python-or fallback then runs the zone for the full 10
minutes, while the claimed formula max(1, round(10 * 1/20)) equals 1. -/
theorem c5_counterexample :
    reducedCond.skip_irrigation = false ∧
    reducedCond.reduction_factor = 1/20 ∧
    scheduledDuration 10 reducedCond = 0 ∧
    effectiveDuration 10 (some (scheduledDuration 10 reducedCond)) false = 10 ∧
    max 1 (round ((10 : ℚ) * reducedCond.reduction_factor)) = 1 ∧
    ((10 : ℤ) = 1 → False) := by
  have hf : reducedCond.reduction_factor = 1/20 := by
    norm_num [reducedCond, check_weather_conditions, recentStage, forecastStage,
      initialConditions]
  have hd : scheduledDuration 10 reducedCond = 0 := by
    norm_num [reducedCond, check_weather_conditions, recentStage, forecastStage,
      initialConditions, scheduledDuration, pyInt]
  refine ⟨?_, hf, hd, ?_, ?_, by norm_num⟩
  · norm_num [reducedCond, check_weather_conditions, recentStage, forecastStage,
      initialConditions]
  · rw [hd]
    norm_num [effectiveDuration]
  · rw [hf, round_eq]
    norm_num

/-- C5 amended: when the decision asks for a reduced duration, the duration
passed to run_zone is the int() truncation of durationMinutes times the
reduction factor, with no rounding and no minimum-1 clamp, so it can be 0;
run_zone's duration_override or zone.duration fallback then treats a passed
0 as no override and uses the zone's full configured duration. -/
theorem c5_truncated_duration (m : ℕ) (c : Conditions)
    (h1 : c.reduce_duration = true) (h2 : 0 ≤ c.reduction_factor) :
    scheduledDuration m c = ⌊(m : ℚ) * c.reduction_factor⌋ ∧
    effectiveDuration m (some (scheduledDuration m c)) false =
      (if scheduledDuration m c = 0 then (m : ℤ) else scheduledDuration m c) := by
  constructor
  · have hq : (0 : ℚ) ≤ (m : ℚ) * c.reduction_factor :=
      mul_nonneg (by positivity) h2
    simp [scheduledDuration, pyInt, h1, hq]
  · simp [effectiveDuration]

/-- Closed instance of c5_truncated_duration: a 7-minute zone reduced with
factor 3/10 is passed int(2.1) = 2 minutes, which run_zone then uses. -/
theorem c5_witness :
    scheduledDuration 7 ⟨false, true, 3/10, Reason.noReason, none, none, none⟩ =
      ⌊(7 : ℚ) * ((3 : ℚ)/10)⌋ ∧
    effectiveDuration 7
        (some (scheduledDuration 7 ⟨false, true, 3/10, Reason.noReason, none, none, none⟩))
        false =
      (if scheduledDuration 7 ⟨false, true, 3/10, Reason.noReason, none, none, none⟩ = 0
       then (7 : ℤ)
       else scheduledDuration 7 ⟨false, true, 3/10, Reason.noReason, none, none, none⟩) :=
  c5_truncated_duration 7 ⟨false, true, 3/10, Reason.noReason, none, none, none⟩
    rfl (by norm_num)

/-- C6 counterexample: a run whose valve-on call succeeded and which is then
cancelled while suspended in the sleep loop makes no valve-off call at all
(CancelledError propagates, there is no cleanup handler), and the status is
left at running rather than stopped. -/
theorem c6_counterexample :
    (run_zone_trace true true 0).valveOnCalls = 1 ∧
    (run_zone_trace true true 0).valveOffCalls = 0 ∧
    (run_zone_trace true true 0).finalStatus = ZoneStatus.running := by
  decide

/-- C6 amended: the valve-off call executes exactly once only when valve-on
succeeded and the wait loop completed without cancellation; cancellation
mid-wait produces no valve-off call, leaves the status at running, and
credits no water. -/
theorem c6_valve_off_only_on_completion (valveOnOk cancelled : Bool) (flowWater : ℚ) :
    (run_zone_trace valveOnOk cancelled flowWater).valveOffCalls =
      (if valveOnOk && !cancelled then 1 else 0) ∧
    (run_zone_trace true true flowWater).finalStatus = ZoneStatus.running ∧
    (run_zone_trace true true flowWater).waterCredited = 0 := by
  cases valveOnOk <;> cases cancelled <;> simp [run_zone_trace]

/-- C7: when the valve-on call reports failure, run_zone sets the status to
failed and stops at once: it never enters the wait loop, makes no valve-off
call, and credits no water. -/
theorem c7_valve_on_failure (cancelled : Bool) (flowWater : ℚ) :
    (run_zone_trace false cancelled flowWater).finalStatus = ZoneStatus.failed ∧
    (run_zone_trace false cancelled flowWater).enteredWaitLoop = false ∧
    (run_zone_trace false cancelled flowWater).valveOffCalls = 0 ∧
    (run_zone_trace false cancelled flowWater).waterCredited = 0 := by
  simp [run_zone_trace]

lemma forecastStage_factor (fc : RainForecastConfig) (f : ForecastSample) :
    (forecastStage fc f).reduction_factor = 1 := by
  simp only [forecastStage]
  split_ifs <;> simp [initialConditions]

lemma recentStage_factor (rr : RecentRainConfig) (r : RecentSample) (c : Conditions) :
    (recentStage rr r c).reduction_factor = c.reduction_factor ∨
    (recentStage rr r c).reduction_factor =
      1 - min rr.compensation_cap (r.rain_mm / (rr.threshold_mm * 2)) := by
  simp only [recentStage]
  split_ifs
  all_goals first
    | exact Or.inl rfl
    | exact Or.inr rfl

/-- C8 counterexample: with compensationRatio = 1, which the claim admits as
lying in [0,1], recent rain 20 mm against a 10 mm threshold yields
reduction factor 1 - min(1, 20/20) = 0, which is not strictly positive. -/
theorem c8_counterexample :
    ((0 : ℚ) ≤ 1 ∧ (1 : ℚ) ≤ 1) ∧
    ¬ (0 < (check_weather_conditions ⟨false, 0, 0⟩ ⟨true, 10, true, 1⟩
        ⟨0, none, false⟩ ⟨20, true⟩).conditions.reduction_factor) := by
  constructor
  · norm_num
  · have h : (check_weather_conditions ⟨false, 0, 0⟩ ⟨true, 10, true, 1⟩
        ⟨0, none, false⟩ ⟨20, true⟩).conditions.reduction_factor = 0 := by
      norm_num [check_weather_conditions, recentStage, forecastStage, initialConditions]
    rw [h]
    norm_num

/-- C8 amended: with compensationRatio in [0,1], a nonnegative recent-rain
reading and a positive recent threshold (the domain on which the Python
division is defined), every evaluation returns a reduction factor in the
closed interval [0,1]; the lower end 0 is attained when compensationRatio
is 1 and recent rain reaches twice the threshold. -/
theorem c8_factor_in_unit_interval (fc : RainForecastConfig) (rr : RecentRainConfig)
    (f : ForecastSample) (r : RecentSample)
    (h1 : 0 ≤ rr.compensation_cap) (h2 : rr.compensation_cap ≤ 1)
    (h3 : 0 < rr.threshold_mm) (h4 : 0 ≤ r.rain_mm) :
    0 ≤ (check_weather_conditions fc rr f r).conditions.reduction_factor ∧
    (check_weather_conditions fc rr f r).conditions.reduction_factor ≤ 1 := by
  have hfc := forecastStage_factor fc f
  have hc := recentStage_factor rr r (forecastStage fc f)
  simp only [check_weather_conditions]
  rcases hc with h | h
  · rw [h, hfc]
    norm_num
  · rw [h]
    constructor
    · have hm : min rr.compensation_cap (r.rain_mm / (rr.threshold_mm * 2)) ≤ 1 :=
        le_trans (min_le_left _ _) h2
      linarith
    · have hd : 0 ≤ r.rain_mm / (rr.threshold_mm * 2) :=
        div_nonneg h4 (by positivity)
      have hm : 0 ≤ min rr.compensation_cap (r.rain_mm / (rr.threshold_mm * 2)) :=
        le_min h1 hd
      linarith

/-- Closed instance of c8_factor_in_unit_interval at the boundary
configuration compensationRatio = 1 with recent rain twice the threshold:
the factor (which equals 0) still lies in [0,1]. -/
theorem c8_witness :
    0 ≤ (check_weather_conditions ⟨false, 0, 0⟩ ⟨true, 10, true, 1⟩
        ⟨0, none, false⟩ ⟨20, true⟩).conditions.reduction_factor ∧
    (check_weather_conditions ⟨false, 0, 0⟩ ⟨true, 10, true, 1⟩
        ⟨0, none, false⟩ ⟨20, true⟩).conditions.reduction_factor ≤ 1 :=
  c8_factor_in_unit_interval ⟨false, 0, 0⟩ ⟨true, 10, true, 1⟩
    ⟨0, none, false⟩ ⟨20, true⟩ (by norm_num) (by norm_num) (by norm_num) (by norm_num)

lemma find?_setDay (s : HistoryStore) (d : String) (v : HistoryDay) :
    (setDay s d v).find? (fun e => e.1 == d) = some (d, v) := by
  induction s with
  | nil => simp [setDay]
  | cons e rest ih =>
    by_cases h : (e.1 == d) = true
    · simp [setDay, h]
    · simp only [setDay, h, if_false, Bool.false_eq_true]
      rw [List.find?_cons_of_neg _ (by simp_all)]
      exact ih

lemma getDay_setDay (s : HistoryStore) (d : String) (v : HistoryDay) :
    getDay (setDay s d v) d = v := by
  simp [getDay, find?_setDay]

/-- C9 (HistoryStore modelled from the spec): on a day with no existing
entry, two addWater(50) calls leave waterUsedLiters = 100 for that day
(additive, zero-initialized on creation), while setRainfall(3) followed by
setRainfall(5) leaves rainfallMm = 5 on any store (overwrite, not sum). -/
theorem c9_history_semantics (s t : HistoryStore) (today : String)
    (h : s.find? (fun e => e.1 == today) = none) :
    (getDay (addWater (addWater s today 50) today 50) today).waterUsedLiters = 100 ∧
    (getDay (setRainfall (setRainfall t today 3) today 5) today).rainfallMm = 5 := by
  have h0 : getDay s today = { waterUsedLiters := 0, rainfallMm := 0 } := by
    simp [getDay, h]
  constructor
  · simp [addWater, getDay_setDay, h0]
    norm_num
  · simp [setRainfall, getDay_setDay]

/-- Closed instance of c9_history_semantics on an empty store and a store
holding an unrelated prior day. -/
theorem c9_witness :
    (getDay (addWater (addWater [] "2025-06-01" 50) "2025-06-01" 50)
        "2025-06-01").waterUsedLiters = 100 ∧
    (getDay (setRainfall (setRainfall
        [("2024-12-31", { waterUsedLiters := 7, rainfallMm := 2 })] "2025-06-01" 3)
        "2025-06-01" 5) "2025-06-01").rainfallMm = 5 :=
  c9_history_semantics [] [("2024-12-31", { waterUsedLiters := 7, rainfallMm := 2 })]
    "2025-06-01" rfl

end SmartIrrigation
